import Mathlib

/-!
Shallow embedding of the mattermost content-moderation plugin
(server/processor.go, server/plugin.go, server/api.go) and proofs about it.

Side-effecting host API calls are modelled as explicit traces of attempted
actions; the host is modelled as an oracle structure saying which attempts
succeed. The external scoring provider is an oracle from text to an optional
per-category severity result (none = provider error or timeout).
-/

namespace ContentModeration

/-- model.Post: the fields the plugin reads or writes. -/
structure Post where
  id        : String
  userId    : String
  channelId : String
  rootId    : String
  message   : String
deriving Repr, DecidableEq

/-- moderation.Result: a map from category label to severity value,
modelled as an association list. -/
abbrev ModerationResult := List (String × Int)

/-- moderation.Moderator.ModerateText as an oracle: none models a provider
error or timeout, some r a successful scoring call. -/
abbrev Moderator := String → Option ModerationResult

/-- Moderation verdict vocabulary. In the Go code a verdict is an error value:
nil maps to Clear, ErrModerationUnavailable to Unavailable and
ErrModerationRejection to Violation. -/
inductive Verdict where
  | Clear
  | Violation
  | Unavailable
deriving Repr, DecidableEq

/-- Attempted host API calls and log emissions, recorded in order. -/
inductive Action where
  | logError (msg : String)
  | logInfo (msg : String)
  | logDebug (msg : String)
  | deletePost (postId : String)
  | createPost (post : Post)
deriving Repr, DecidableEq

/-- True for log emissions, false for host content actions. -/
def Action.isLog : Action → Bool
  | Action.logError _ => true
  | Action.logInfo _ => true
  | Action.logDebug _ => true
  | Action.deletePost _ => false
  | Action.createPost _ => false

/-- Host API oracle: which attempted side effects succeed, and the result of
the direct-channel lookup (none = lookup failure). -/
structure HostAPI where
  deletePostOK : String → Bool
  createPostOK : Post → Bool
  getDirectChannel : String → String → Option String

/-! ## Constants from processor.go -/

def maxProcessingQueueSize : Nat := 10000

def postsPerMinuteLimit : Nat := 500

/-- time.Minute in nanoseconds (Go Duration unit). -/
def timeMinute : Nat := 60 * 1000000000

/-- processor.go line 20: `processingInterval = 1 / postsPerMinuteLimit * time.Minute`.
Go evaluates this with untyped integer constant arithmetic, left to right:
1 / 500 truncates to 0, so the whole product is 0 nanoseconds. -/
def processingInterval : Nat := 1 / postsPerMinuteLimit * timeMinute

/-- The interval the surrounding comment and the spec intend: one minute
divided by the per-minute limit (120 milliseconds in nanoseconds). -/
def intendedProcessingInterval : Nat := timeMinute / postsPerMinuteLimit

def channelNotificationTemplate : String :=
  "_A post with potentially offensive content was flagged and removed._"

def dmNotificationTemplate : String :=
  "_Your post with the following content was flagged and removed:_\n\n%s"

/-- fmt.Sprintf applied to dmNotificationTemplate: the single %s placeholder
is replaced by the flagged message text. -/
def dmNotificationText (msg : String) : String :=
  "_Your post with the following content was flagged and removed:_\n\n" ++ msg

/-! ## Decision engine (processor.go) -/

/-- Shared body of PostProcessor.resultSeverityAboveThreshold
(processor.go 162-169) and Plugin.resultSeverityAboveThreshold
(plugin.go 164-172), which are textually identical loops: true iff some
category severity meets or exceeds the threshold. -/
def resultSeverityAboveThreshold (thresholdValue : Int) (result : ModerationResult) : Bool :=
  result.any fun c => decide (thresholdValue ≤ c.2)

/-- PostProcessor state (processor.go 34-43). The Go excluded sets are
string-keyed maps used as sets; sets of strings here. -/
structure PostProcessor where
  botID : String
  thresholdValue : Int
  excludedUsers : List String
  excludedChannels : List String

/-- processor.go 143-152. -/
def PostProcessor.shouldModerateUser (p : PostProcessor) (userID : String) : Bool :=
  if userID = p.botID then false
  else if p.excludedUsers.isEmpty then true
  else !(p.excludedUsers.contains userID)

/-- processor.go 154-160. -/
def PostProcessor.shouldModerateChannel (p : PostProcessor) (channelID : String) : Bool :=
  if p.excludedChannels.isEmpty then true
  else !(p.excludedChannels.contains channelID)

/-- processor.go 114-141, PostProcessor.moderatePost. Returns the verdict
(the Go error value) paired with whether ModerateText was invoked. -/
def PostProcessor.moderatePost (p : PostProcessor) (mod : Moderator) (post : Post) :
    Verdict × Bool :=
  if p.shouldModerateUser post.userId = false then (Verdict.Clear, false)
  else if p.shouldModerateChannel post.channelId = false then (Verdict.Clear, false)
  else if post.message = "" then (Verdict.Clear, false)
  else
    match mod post.message with
    | none => (Verdict.Unavailable, true)
    | some result =>
      if resultSeverityAboveThreshold p.thresholdValue result then (Verdict.Violation, true)
      else (Verdict.Clear, true)

/-! ## Asynchronous worker and action executor (processor.go) -/

/-- The channel notice built in processor.go 185-190: posted by the bot into
the original channel and thread, with the fixed template text. -/
def channelNoticePost (p : PostProcessor) (post : Post) : Post :=
  { id := "", userId := p.botID, channelId := post.channelId, rootId := post.rootId,
    message := channelNotificationTemplate }

/-- The direct-message notice built in processor.go 199-203: posted by the bot
into the DM channel, quoting the flagged message text. -/
def dmNoticePost (p : PostProcessor) (dmChannelId : String) (post : Post) : Post :=
  { id := "", userId := p.botID, channelId := dmChannelId, rootId := "",
    message := dmNotificationText post.message }

/-- processor.go 184-208, PostProcessor.reportModerationEvent: the trace of
attempted CreatePost calls paired with overall success. A failed channel
notice, or a failed direct-channel lookup, returns early: no further attempt
is made. -/
def PostProcessor.reportModerationEvent (p : PostProcessor) (api : HostAPI) (post : Post) :
    List Action × Bool :=
  if api.createPostOK (channelNoticePost p post) = false then
    ([Action.createPost (channelNoticePost p post)], false)
  else
    match api.getDirectChannel p.botID post.userId with
    | none => ([Action.createPost (channelNoticePost p post)], false)
    | some dmId =>
      if api.createPostOK (dmNoticePost p dmId post) = false then
        ([Action.createPost (channelNoticePost p post),
          Action.createPost (dmNoticePost p dmId post)], false)
      else
        ([Action.createPost (channelNoticePost p post),
          Action.createPost (dmNoticePost p dmId post)], true)

/-- The loop body of PostProcessor.start (processor.go 65-94) for one dequeued
post: the ordered trace of attempted host calls and error logs. -/
def PostProcessor.processPost (p : PostProcessor) (mod : Moderator) (api : HostAPI)
    (post : Post) : List Action :=
  match (p.moderatePost mod post).1 with
  | Verdict.Clear => []
  | Verdict.Unavailable => [Action.logError "Content moderation error"]
  | Verdict.Violation =>
    (if api.deletePostOK post.id then [Action.deletePost post.id]
     else [Action.deletePost post.id,
           Action.logError "Failed to delete post flagged by content moderation"]) ++
    (if (p.reportModerationEvent api post).2 then (p.reportModerationEvent api post).1
     else (p.reportModerationEvent api post).1 ++
          [Action.logError "Failed report content moderation event"])

/-! ## Bounded queue (processor.go 42, 61, 96-112) -/

/-- The buffered channel postsCh: its buffered items in FIFO order and
whether close(p.postsCh) has happened. -/
structure PostQueue where
  items : List Post
  isClosed : Bool
deriving Repr, DecidableEq

/-- PostProcessor.stop (processor.go 96-98): close(p.postsCh). -/
def closeQueue (q : PostQueue) : PostQueue :=
  { q with isClosed := true }

/-- Outcome of the select statement in processor.go 107-111 under Go channel
semantics: a send on a closed channel panics even inside a select; a send on
a full buffered channel falls to the default branch; otherwise the post is
buffered at the tail. -/
inductive SendOutcome where
  | sent (q : PostQueue)
  | full
  | panicked
deriving Repr, DecidableEq

def trySend (q : PostQueue) (post : Post) : SendOutcome :=
  if q.isClosed then SendOutcome.panicked
  else if maxProcessingQueueSize ≤ q.items.length then SendOutcome.full
  else SendOutcome.sent { q with items := q.items ++ [post] }

/-- processor.go 100-112, PostProcessor.queuePostForProcessing: the select
with a default branch, wrapped in a deferred recover. Returns the resulting
queue state and the emitted log actions; the function always returns
normally to the caller. -/
def queuePostForProcessing (q : PostQueue) (post : Post) : PostQueue × List Action :=
  match trySend q post with
  | SendOutcome.sent q2 => (q2, [])
  | SendOutcome.full =>
    (q, [Action.logError
      "Content moderation unable to analyze post: exceeded maximum post queue size"])
  | SendOutcome.panicked =>
    (q, [Action.logDebug "Panic occurred while queueing post for processing"])

/-! ## Synchronous gate (plugin.go) -/

/-- The error values ErrModerationRejection and ErrModerationUnavailable of
plugin.go 18-21 (the snapshot whose texts are the redaction notices). -/
inductive ModerationError where
  | rejection
  | unavailable
deriving Repr, DecidableEq

def moderationErrorText : ModerationError → String
  | ModerationError.rejection =>
    "_This post has been redacted by the moderation plugin: potentially inappropriate content detected_"
  | ModerationError.unavailable =>
    "_This post has been redacted by the moderation plugin: moderation service is not available_"

/-- Plugin state for the synchronous gate (plugin.go 24-36): the configured
threshold, the moderate-all-users flag, and the explicit target-user set.
There is no bot identity field on this path. -/
structure Plugin where
  thresholdValue : Int
  moderateAllUsers : Bool
  targetUsers : List String

/-- plugin.go 151-162, Plugin.shouldModerateUser. -/
def Plugin.shouldModerateUser (pl : Plugin) (userID : String) : Bool :=
  if pl.moderateAllUsers then true
  else pl.targetUsers.contains userID

/-- plugin.go 121-148, Plugin.moderatePost: the returned error (none models
a nil error), whether ModerateText was invoked, and the emitted log actions.
The moderator argument is none when p.moderator is nil (moderation disabled). -/
def Plugin.moderatePost (pl : Plugin) (moderator : Option Moderator) (post : Post) :
    Option ModerationError × Bool × List Action :=
  match moderator with
  | none => (none, false, [])
  | some mod =>
    if pl.shouldModerateUser post.userId = false then (none, false, [])
    else if post.message = "" then (none, false, [])
    else
      match mod post.message with
      | none =>
        (some ModerationError.unavailable, true, [Action.logError "Text moderation failed"])
      | some result =>
        if resultSeverityAboveThreshold pl.thresholdValue result then
          (some ModerationError.rejection, true,
           [Action.logInfo "Content was flagged by moderation"])
        else (none, true, [])

/-- plugin.go 99-105, Plugin.MessageWillBePosted: on a moderation error the
post body is replaced with the error text and the hook returns the rewritten
post with an empty rejection reason; otherwise nil post and empty reason. -/
def Plugin.messageWillBePosted (pl : Plugin) (moderator : Option Moderator) (newPost : Post) :
    Option Post × String × List Action :=
  match pl.moderatePost moderator newPost with
  | (some e, _, acts) => (some { newPost with message := moderationErrorText e }, "", acts)
  | (none, _, acts) => (none, "", acts)

/-! ## HTTP group-search endpoint (api.go) -/

/-- Observable writes to the HTTP response, in order. -/
inductive HTTPAction where
  | errorResponse (msg : String) (status : Nat)
  | jsonResponse (groups : List String)
deriving Repr, DecidableEq

/-- strings.TrimSpace from the Go standard library: drop whitespace from
both ends of the string. -/
def trimSpace (s : String) : String :=
  String.mk (((s.data.dropWhile Char.isWhitespace).reverse.dropWhile
    Char.isWhitespace).reverse)

/-- api.go 32-50, Plugin.searchLDAPGroups: trims the search parameter,
answers 400 when it is empty, 500 when the store search fails, else writes
the JSON array. The store call SearchLDAPGroupsByPrefix is the oracle
searchGroups (none = store error). -/
def searchLDAPGroups (searchGroups : String → Option (List String))
    (par : String) : List HTTPAction :=
  if trimSpace par = "" then [HTTPAction.errorResponse "missing search prefix" 400]
  else
    match searchGroups (trimSpace par) with
    | none => [HTTPAction.errorResponse "failed to search groups" 500]
    | some groups => [HTTPAction.jsonResponse groups]

/-- api.go 14-30, Plugin.ServeHTTP on the group-search route. The source
writes the 401 error for a user without the manage-system permission but is
missing a return statement there, so the router still runs and the search
handler output is appended to the same response. -/
def serveHTTP (hasManageSystemPermission : String → Bool)
    (searchGroups : String → Option (List String))
    (userID : String) (par : String) : List HTTPAction :=
  if userID = "" then [HTTPAction.errorResponse "Not authorized" 401]
  else
    (if hasManageSystemPermission userID = false then
      [HTTPAction.errorResponse "Not authorized" 401]
     else []) ++ searchLDAPGroups searchGroups par

/-! ## Helper lemmas -/

/-- Unfolding lemma: the boolean threshold check is true exactly when some
category value reaches the threshold. -/
theorem severityAbove_iff (t : Int) (r : ModerationResult) :
    resultSeverityAboveThreshold t r = true ↔ ∃ c ∈ r, t ≤ c.2 := by
  simp [resultSeverityAboveThreshold, List.any_eq_true]

theorem severityAbove_false_iff (t : Int) (r : ModerationResult) :
    resultSeverityAboveThreshold t r = false ↔ ∀ c ∈ r, c.2 < t := by
  simp [resultSeverityAboveThreshold, List.any_eq_false, Int.not_le]

/-- Unfolding lemma for the Violation branch of the worker loop body. -/
theorem processPost_violation_eq
    (p : PostProcessor) (mod : Moderator) (api : HostAPI) (post : Post)
    (hv : (p.moderatePost mod post).1 = Verdict.Violation) :
    p.processPost mod api post =
      (if api.deletePostOK post.id then [Action.deletePost post.id]
       else [Action.deletePost post.id,
             Action.logError "Failed to delete post flagged by content moderation"]) ++
      (if (p.reportModerationEvent api post).2 then (p.reportModerationEvent api post).1
       else (p.reportModerationEvent api post).1 ++
            [Action.logError "Failed report content moderation event"]) := by
  unfold PostProcessor.processPost
  rw [hv]

/-- The notification sequence always opens with the channel-notice attempt. -/
theorem report_trace_head (p : PostProcessor) (api : HostAPI) (post : Post) :
    ∃ rest, (p.reportModerationEvent api post).1 =
      Action.createPost (channelNoticePost p post) :: rest := by
  unfold PostProcessor.reportModerationEvent
  by_cases h1 : api.createPostOK (channelNoticePost p post) = false
  · exact ⟨[], by rw [if_pos h1]⟩
  · rw [if_neg h1]
    cases hd : api.getDirectChannel p.botID post.userId with
    | none => exact ⟨[], rfl⟩
    | some dmId =>
      by_cases h2 : api.createPostOK (dmNoticePost p dmId post) = false
      · exact ⟨[Action.createPost (dmNoticePost p dmId post)], by simp [h2]⟩
      · exact ⟨[Action.createPost (dmNoticePost p dmId post)], by simp [h2]⟩

/-- The synchronous path only ever logs: it attempts no deletion and no
post creation. -/
theorem sync_trace_only_logs (pl : Plugin) (moderator : Option Moderator) (post : Post) :
    (pl.moderatePost moderator post).2.2.all Action.isLog = true := by
  unfold Plugin.moderatePost
  cases moderator with
  | none => rfl
  | some mod =>
    dsimp only
    by_cases h1 : pl.shouldModerateUser post.userId = false
    · simp [h1]
    · rw [if_neg h1]
      by_cases h2 : post.message = ""
      · simp [h2]
      · rw [if_neg h2]
        cases mod post.message with
        | none => rfl
        | some result =>
          by_cases h3 : resultSeverityAboveThreshold pl.thresholdValue result = true
          · simp [h3, Action.isLog]
          · simp [h3]

/-- The hook returns the same trace as the moderation call. -/
theorem messageWillBePosted_trace (pl : Plugin) (moderator : Option Moderator) (post : Post) :
    (pl.messageWillBePosted moderator post).2.2 = (pl.moderatePost moderator post).2.2 := by
  unfold Plugin.messageWillBePosted
  rcases h : pl.moderatePost moderator post with ⟨err, called, acts⟩
  cases err <;> simp

/-! ## Claim theorems -/

/-- C1: For every severity score and configured threshold, once the scoring
call succeeds the verdict is Violation iff at least one category value is at
or above the threshold, and Clear iff every category value is strictly below
the threshold. -/
theorem verdict_violation_iff_category_at_threshold
    (p : PostProcessor) (mod : Moderator) (post : Post) (r : ModerationResult)
    (hu : p.shouldModerateUser post.userId = true)
    (hc : p.shouldModerateChannel post.channelId = true)
    (hm : post.message ≠ "")
    (hr : mod post.message = some r) :
    ((p.moderatePost mod post).1 = Verdict.Violation ↔ ∃ c ∈ r, p.thresholdValue ≤ c.2) ∧
    ((p.moderatePost mod post).1 = Verdict.Clear ↔ ∀ c ∈ r, c.2 < p.thresholdValue) := by
  unfold PostProcessor.moderatePost
  rw [hu, hc, hr]
  simp only [Bool.true_eq_false, if_false, if_neg hm]
  by_cases hA : resultSeverityAboveThreshold p.thresholdValue r = true
  · rw [if_pos hA]
    constructor
    · simpa using (severityAbove_iff p.thresholdValue r).mp hA
    · constructor
      · intro h; cases h
      · intro hall
        have := (severityAbove_false_iff p.thresholdValue r).mpr hall
        rw [hA] at this; cases this
  · rw [if_neg hA]
    have hfalse : resultSeverityAboveThreshold p.thresholdValue r = false := by
      simpa using hA
    constructor
    · constructor
      · intro h; cases h
      · intro hex
        have := (severityAbove_iff p.thresholdValue r).mpr hex
        rw [hfalse] at this; cases this
    · simpa using (severityAbove_false_iff p.thresholdValue r).mp hfalse

/-- Witness for C1 at a concrete input: threshold 50 and score hate=80
give Violation. -/
theorem verdict_violation_iff_category_at_threshold_witness :
    (({ botID := "bot", thresholdValue := 50, excludedUsers := [],
        excludedChannels := [] } : PostProcessor).moderatePost
      (fun _ => some [("hate", 80)])
      { id := "p1", userId := "u1", channelId := "c1", rootId := "", message := "bad text" }).1
      = Verdict.Violation := by
  exact (verdict_violation_iff_category_at_threshold
    { botID := "bot", thresholdValue := 50, excludedUsers := [], excludedChannels := [] }
    (fun _ => some [("hate", 80)])
    { id := "p1", userId := "u1", channelId := "c1", rootId := "", message := "bad text" }
    [("hate", 80)]
    (by decide) (by decide) (by decide) rfl).1.mpr
    ⟨("hate", 80), by decide, by decide⟩

/-- C2: When the scoring call itself fails, both paths yield the Unavailable
outcome and the async worker only logs: its trace holds no deletion and no
notification attempt (fail-open). -/
theorem scoring_failure_fails_open
    (p : PostProcessor) (pl : Plugin) (mod : Moderator) (api : HostAPI) (post : Post)
    (hu : p.shouldModerateUser post.userId = true)
    (hc : p.shouldModerateChannel post.channelId = true)
    (hsu : pl.shouldModerateUser post.userId = true)
    (hm : post.message ≠ "")
    (hf : mod post.message = none) :
    (p.moderatePost mod post).1 = Verdict.Unavailable ∧
    p.processPost mod api post = [Action.logError "Content moderation error"] ∧
    (pl.moderatePost (some mod) post).1 = some ModerationError.unavailable := by
  have hv : p.moderatePost mod post = (Verdict.Unavailable, true) := by
    unfold PostProcessor.moderatePost
    rw [hu, hc, hf]
    simp [hm]
  refine ⟨by rw [hv], ?_, ?_⟩
  · unfold PostProcessor.processPost
    rw [hv]
  · unfold Plugin.moderatePost
    dsimp only
    rw [hsu, hf]
    simp [hm]

/-- Witness for C2 at a concrete input: a provider that always errors yields
Unavailable and a log-only worker trace. -/
theorem scoring_failure_fails_open_witness :
    (({ botID := "bot", thresholdValue := 50, excludedUsers := [],
        excludedChannels := [] } : PostProcessor).moderatePost (fun _ => none)
      { id := "p1", userId := "u1", channelId := "c1", rootId := "", message := "text" }).1
      = Verdict.Unavailable ∧
    ({ botID := "bot", thresholdValue := 50, excludedUsers := [],
       excludedChannels := [] } : PostProcessor).processPost (fun _ => none)
      { deletePostOK := fun _ => true, createPostOK := fun _ => true,
        getDirectChannel := fun _ _ => some "dm" }
      { id := "p1", userId := "u1", channelId := "c1", rootId := "", message := "text" }
      = [Action.logError "Content moderation error"] ∧
    (({ thresholdValue := 50, moderateAllUsers := true,
        targetUsers := [] } : Plugin).moderatePost (some fun _ => none)
      { id := "p1", userId := "u1", channelId := "c1", rootId := "", message := "text" }).1
      = some ModerationError.unavailable := by
  exact scoring_failure_fails_open
    { botID := "bot", thresholdValue := 50, excludedUsers := [], excludedChannels := [] }
    { thresholdValue := 50, moderateAllUsers := true, targetUsers := [] }
    (fun _ => none)
    { deletePostOK := fun _ => true, createPostOK := fun _ => true,
      getDirectChannel := fun _ _ => some "dm" }
    { id := "p1", userId := "u1", channelId := "c1", rootId := "", message := "text" }
    (by decide) (by decide) (by decide) (by decide) rfl

/-- C3 fails on the code: the Go constant expression
`1 / postsPerMinuteLimit * time.Minute` truncates 1 / 500 to 0, so the
worker sleeps 0 nanoseconds between items instead of the intended 120
milliseconds, and the loop enforces no rate ceiling at all. -/
theorem processingInterval_is_zero :
    processingInterval = 0 ∧
    intendedProcessingInterval = 120000000 ∧
    processingInterval < intendedProcessingInterval := by
  refine ⟨rfl, rfl, ?_⟩
  decide

/-- C4 fails on the code: an authenticated caller without the system-admin
permission is answered with the 401 error, yet the group search still runs
and its result is written into the same response, because ServeHTTP lacks a
return after the permission check. -/
theorem serveHTTP_permission_bypass :
    serveHTTP (fun _ => false) (fun _ => some ["engineering"]) "alice" "eng" =
      [HTTPAction.errorResponse "Not authorized" 401,
       HTTPAction.jsonResponse ["engineering"]] := by
  decide

/-- Counterexample to C5 as stated: a host where the channel notice fails but
the direct message would succeed. The notification sequence stops after the
failed channel notice, so the direct notice to the author is never attempted,
although nothing prevented it. -/
theorem channel_notice_failure_blocks_dm :
    let p : PostProcessor :=
      { botID := "bot", thresholdValue := 50, excludedUsers := [], excludedChannels := [] }
    let post : Post :=
      { id := "p1", userId := "u1", channelId := "c1", rootId := "", message := "bad text" }
    let api : HostAPI :=
      { deletePostOK := fun _ => true,
        createPostOK := fun q => q.channelId == "dmchan",
        getDirectChannel := fun _ _ => some "dmchan" }
    api.createPostOK (dmNoticePost p "dmchan" post) = true ∧
    (p.reportModerationEvent api post).1 = [Action.createPost (channelNoticePost p post)] ∧
    ∀ a ∈ (p.reportModerationEvent api post).1,
      a ≠ Action.createPost (dmNoticePost p "dmchan" post) := by
  refine ⟨rfl, rfl, ?_⟩
  decide

/-- C5 as amended: the deletion and the notification sequence are attempted
independently (a deletion failure is only logged), and a direct-message
failure is only logged and does not retract the channel notice; but a failed
channel notice (or direct-channel lookup) aborts the sequence, so the direct
notice is then not attempted, with the failure logged. -/
theorem violation_failure_handling
    (p : PostProcessor) (mod : Moderator) (api : HostAPI) (post : Post)
    (hv : (p.moderatePost mod post).1 = Verdict.Violation) :
    Action.createPost (channelNoticePost p post) ∈ p.processPost mod api post ∧
    (api.deletePostOK post.id = false →
      Action.logError "Failed to delete post flagged by content moderation"
        ∈ p.processPost mod api post) ∧
    (api.createPostOK (channelNoticePost p post) = false →
      (p.reportModerationEvent api post).1 =
        [Action.createPost (channelNoticePost p post)] ∧
      Action.logError "Failed report content moderation event"
        ∈ p.processPost mod api post) ∧
    (∀ dmId, api.getDirectChannel p.botID post.userId = some dmId →
      api.createPostOK (channelNoticePost p post) = true →
      api.createPostOK (dmNoticePost p dmId post) = false →
      (p.reportModerationEvent api post).1 =
        [Action.createPost (channelNoticePost p post),
         Action.createPost (dmNoticePost p dmId post)] ∧
      Action.logError "Failed report content moderation event"
        ∈ p.processPost mod api post) := by
  rw [processPost_violation_eq p mod api post hv]
  obtain ⟨rest, hrest⟩ := report_trace_head p api post
  refine ⟨?_, ?_, ?_, ?_⟩
  · rw [List.mem_append]
    right
    split <;> simp [hrest]
  · intro hdf
    rw [List.mem_append]
    left
    simp [hdf]
  · intro hcf
    have hrep : p.reportModerationEvent api post =
        ([Action.createPost (channelNoticePost p post)], false) := by
      unfold PostProcessor.reportModerationEvent
      rw [if_pos hcf]
    refine ⟨by rw [hrep], ?_⟩
    rw [List.mem_append]
    right
    rw [hrep]
    simp
  · intro dmId hlook hcs hdf
    have hrep : p.reportModerationEvent api post =
        ([Action.createPost (channelNoticePost p post),
          Action.createPost (dmNoticePost p dmId post)], false) := by
      unfold PostProcessor.reportModerationEvent
      rw [hlook]
      simp [hcs, hdf]
    refine ⟨by rw [hrep], ?_⟩
    rw [List.mem_append]
    right
    rw [hrep]
    simp

/-- Witness for the amended C5 at a concrete input: with a host whose delete
fails, the channel-notice attempt still appears in the worker trace. -/
theorem violation_failure_handling_witness :
    Action.createPost (channelNoticePost
      { botID := "bot", thresholdValue := 50, excludedUsers := [], excludedChannels := [] }
      { id := "p1", userId := "u1", channelId := "c1", rootId := "", message := "bad text" })
      ∈ ({ botID := "bot", thresholdValue := 50, excludedUsers := [],
           excludedChannels := [] } : PostProcessor).processPost
        (fun _ => some [("hate", 80)])
        { deletePostOK := fun _ => false, createPostOK := fun _ => true,
          getDirectChannel := fun _ _ => some "dmchan" }
        { id := "p1", userId := "u1", channelId := "c1", rootId := "", message := "bad text" } := by
  exact (violation_failure_handling
    { botID := "bot", thresholdValue := 50, excludedUsers := [], excludedChannels := [] }
    (fun _ => some [("hate", 80)])
    { deletePostOK := fun _ => false, createPostOK := fun _ => true,
      getDirectChannel := fun _ _ => some "dmchan" }
    { id := "p1", userId := "u1", channelId := "c1", rootId := "", message := "bad text" }
    (by decide)).1

/-- Counterexample to C6 as stated: the asynchronous worker exempts the bot
identity, but the synchronous gate has no bot identity at all; with
moderate-all-users enabled it scores a bot-authored post and rejects it. -/
theorem bot_not_exempt_on_sync_gate :
    let botPost : Post :=
      { id := "p1", userId := "bot", channelId := "c1", rootId := "", message := "flag me" }
    (({ botID := "bot", thresholdValue := 50, excludedUsers := [],
        excludedChannels := [] } : PostProcessor).moderatePost
      (fun _ => some [("hate", 80)]) botPost) = (Verdict.Clear, false) ∧
    (({ thresholdValue := 50, moderateAllUsers := true,
        targetUsers := [] } : Plugin).moderatePost
      (some fun _ => some [("hate", 80)]) botPost).1 = some ModerationError.rejection ∧
    (({ thresholdValue := 50, moderateAllUsers := true,
        targetUsers := [] } : Plugin).moderatePost
      (some fun _ => some [("hate", 80)]) botPost).2.1 = true := by
  refine ⟨rfl, rfl, rfl⟩

/-- C6 as amended: only the asynchronous worker path implicitly exempts the
bot identity — a bot-authored post yields Clear there with no provider call,
regardless of the configured exclusion sets. -/
theorem bot_exempt_on_async_path (p : PostProcessor) (mod : Moderator) (post : Post)
    (h : post.userId = p.botID) :
    p.moderatePost mod post = (Verdict.Clear, false) := by
  unfold PostProcessor.moderatePost PostProcessor.shouldModerateUser
  simp [h]

/-- Witness for the amended C6 at a concrete input. -/
theorem bot_exempt_on_async_path_witness :
    ({ botID := "bot", thresholdValue := 0, excludedUsers := [],
       excludedChannels := [] } : PostProcessor).moderatePost
      (fun _ => some [("hate", 80)])
      { id := "p1", userId := "bot", channelId := "c1", rootId := "", message := "flag me" } =
      (Verdict.Clear, false) := by
  exact bot_exempt_on_async_path
    { botID := "bot", thresholdValue := 0, excludedUsers := [], excludedChannels := [] }
    (fun _ => some [("hate", 80)])
    { id := "p1", userId := "bot", channelId := "c1", rootId := "", message := "flag me" }
    rfl

/-- C7: the synchronous gate always returns an empty rejection-reason string
(the post is rewritten, never hard-rejected), passes a clear post through
unmodified, replaces the body of a flagged or unavailable post with the
corresponding fixed notice (the two texts are distinct), and attempts no
deletion and no notification post. -/
theorem sync_gate_rewrites_not_rejects
    (pl : Plugin) (moderator : Option Moderator) (post : Post) :
    (pl.messageWillBePosted moderator post).2.1 = "" ∧
    (pl.messageWillBePosted moderator post).2.2.all Action.isLog = true ∧
    ((pl.moderatePost moderator post).1 = none →
      (pl.messageWillBePosted moderator post).1 = none) ∧
    (∀ e, (pl.moderatePost moderator post).1 = some e →
      (pl.messageWillBePosted moderator post).1 =
        some { post with message := moderationErrorText e }) ∧
    moderationErrorText ModerationError.rejection ≠
      moderationErrorText ModerationError.unavailable := by
  refine ⟨?_, ?_, ?_, ?_, by decide⟩
  · unfold Plugin.messageWillBePosted
    rcases h : pl.moderatePost moderator post with ⟨err, called, acts⟩
    cases err <;> simp
  · rw [messageWillBePosted_trace]
    exact sync_trace_only_logs pl moderator post
  · intro hnone
    unfold Plugin.messageWillBePosted
    rcases h : pl.moderatePost moderator post with ⟨err, called, acts⟩
    rw [h] at hnone
    cases err with
    | none => simp
    | some e => cases hnone
  · intro e he
    unfold Plugin.messageWillBePosted
    rcases h : pl.moderatePost moderator post with ⟨err, called, acts⟩
    rw [h] at he
    cases err with
    | none => cases he
    | some e2 =>
      have : e2 = e := by
        have := congrArg (fun o => o.getD ModerationError.rejection) he
        simpa using this
      rw [this]

/-- Witness for C7 at a concrete input: a flagged post is returned rewritten
with the rejection notice and an empty rejection reason. -/
theorem sync_gate_rewrites_not_rejects_witness :
    (({ thresholdValue := 50, moderateAllUsers := true,
        targetUsers := [] } : Plugin).messageWillBePosted
      (some fun _ => some [("hate", 80)])
      { id := "p1", userId := "u1", channelId := "c1", rootId := "", message := "bad text" }).1 =
      some { id := "p1", userId := "u1", channelId := "c1", rootId := "",
             message := moderationErrorText ModerationError.rejection } := by
  exact (sync_gate_rewrites_not_rejects
    { thresholdValue := 50, moderateAllUsers := true, targetUsers := [] }
    (some fun _ => some [("hate", 80)])
    { id := "p1", userId := "u1", channelId := "c1", rootId := "", message := "bad text" }
    ).2.2.2.1 ModerationError.rejection (by decide)

/-- C8: enqueue is a total function of the queue state (the caller is never
blocked), and on a full open queue the item is dropped, the queue is left
unchanged, and exactly one operational error is logged; no panic reaches the
caller. -/
theorem enqueue_at_capacity_drops (q : PostQueue) (post : Post)
    (hopen : q.isClosed = false)
    (hfull : q.items.length = maxProcessingQueueSize) :
    queuePostForProcessing q post =
      (q, [Action.logError
        "Content moderation unable to analyze post: exceeded maximum post queue size"]) := by
  unfold queuePostForProcessing trySend
  rw [hopen, hfull]
  simp

/-- Witness for C8 at a concrete input: a queue holding exactly 10000 items
drops the next enqueued post. -/
theorem enqueue_at_capacity_drops_witness :
    queuePostForProcessing
      { items := List.replicate 10000
          { id := "p", userId := "u", channelId := "c", rootId := "", message := "m" },
        isClosed := false }
      { id := "p2", userId := "u2", channelId := "c2", rootId := "", message := "m2" } =
      ({ items := List.replicate 10000
          { id := "p", userId := "u", channelId := "c", rootId := "", message := "m" },
         isClosed := false },
       [Action.logError
         "Content moderation unable to analyze post: exceeded maximum post queue size"]) := by
  exact enqueue_at_capacity_drops _ _ rfl
    (by rw [List.length_replicate, maxProcessingQueueSize])

/-- C9: On the asynchronous path, a Violation with a cooperating host yields
exactly this trace: one deletion of the flagged post, one channel notice in
the original channel and thread whose text is the fixed template (independent
of the flagged message), and one direct message whose text embeds the flagged
message. -/
theorem violation_delete_and_two_notices
    (p : PostProcessor) (mod : Moderator) (api : HostAPI) (post : Post) (dmId : String)
    (hv : (p.moderatePost mod post).1 = Verdict.Violation)
    (hdel : api.deletePostOK post.id = true)
    (hch : api.createPostOK (channelNoticePost p post) = true)
    (hlook : api.getDirectChannel p.botID post.userId = some dmId)
    (hdm : api.createPostOK (dmNoticePost p dmId post) = true) :
    p.processPost mod api post =
      [Action.deletePost post.id,
       Action.createPost (channelNoticePost p post),
       Action.createPost (dmNoticePost p dmId post)] ∧
    (channelNoticePost p post).channelId = post.channelId ∧
    (channelNoticePost p post).rootId = post.rootId ∧
    (channelNoticePost p post).message = channelNotificationTemplate ∧
    (∃ s, (dmNoticePost p dmId post).message = s ++ post.message) := by
  have hrep : p.reportModerationEvent api post =
      ([Action.createPost (channelNoticePost p post),
        Action.createPost (dmNoticePost p dmId post)], true) := by
    unfold PostProcessor.reportModerationEvent
    rw [hlook]
    simp [hch, hdm]
  refine ⟨?_, rfl, rfl, rfl,
    ⟨"_Your post with the following content was flagged and removed:_\n\n", rfl⟩⟩
  rw [processPost_violation_eq p mod api post hv, hrep]
  simp [hdel]

/-- Witness for C9 at a concrete input: threshold 50, score hate=80 and a
host where every call succeeds. -/
theorem violation_delete_and_two_notices_witness :
    ({ botID := "bot", thresholdValue := 50, excludedUsers := [],
       excludedChannels := [] } : PostProcessor).processPost
      (fun _ => some [("hate", 80)])
      { deletePostOK := fun _ => true, createPostOK := fun _ => true,
        getDirectChannel := fun _ _ => some "dmchan" }
      { id := "p1", userId := "u1", channelId := "c1", rootId := "r1", message := "bad text" } =
      [Action.deletePost "p1",
       Action.createPost (channelNoticePost
         { botID := "bot", thresholdValue := 50, excludedUsers := [], excludedChannels := [] }
         { id := "p1", userId := "u1", channelId := "c1", rootId := "r1", message := "bad text" }),
       Action.createPost (dmNoticePost
         { botID := "bot", thresholdValue := 50, excludedUsers := [], excludedChannels := [] }
         "dmchan"
         { id := "p1", userId := "u1", channelId := "c1", rootId := "r1", message := "bad text" })] := by
  exact (violation_delete_and_two_notices
    { botID := "bot", thresholdValue := 50, excludedUsers := [], excludedChannels := [] }
    (fun _ => some [("hate", 80)])
    { deletePostOK := fun _ => true, createPostOK := fun _ => true,
      getDirectChannel := fun _ _ => some "dmchan" }
    { id := "p1", userId := "u1", channelId := "c1", rootId := "r1", message := "bad text" }
    "dmchan" (by decide) rfl rfl rfl rfl).1

/-- C10: enqueueing after stop() has closed the channel panics inside the
select, the deferred recover converts the panic into a debug log, the queue
state is unchanged and the caller returns normally. -/
theorem enqueue_after_close_recovers (q : PostQueue) (post : Post) :
    trySend (closeQueue q) post = SendOutcome.panicked ∧
    queuePostForProcessing (closeQueue q) post =
      (closeQueue q,
       [Action.logDebug "Panic occurred while queueing post for processing"]) := by
  constructor
  · unfold trySend closeQueue
    simp
  · unfold queuePostForProcessing trySend closeQueue
    simp

end ContentModeration
